import Mathlib

/-!
Verification development for the reffect-motion-creator rendering engine.

Shallow embedding over `ℚ` of the shared numeric utilities
(`src/engine/utils/math.js`), the SVG sampler dimension logic
(`src/engine/svg-sampler.js`) and the static / animated effect modules
(vertical-lines, horizontal-lines, ellipse-grid, star-glint,
particle-scatter).  JavaScript numbers are modelled as rationals;
32-bit integer arithmetic is modelled on bit patterns in `[0, 2^32)`;
the platform-approximated `Math.sin` / `Math.pow` and the double
constant `Math.PI` are parameters of the embedding (`jsSin`, `jsPow`,
`jsPi`).  SVG/canvas primitives are modelled as records of their
geometric attributes; the `toFixed` decimal formatting of printed
coordinates is not modelled (claims compare geometry modulo rounding).
-/

namespace Reffect

/-- Embedding of `lerp(a, b, t) = a + (b - a) * t` from `math.js`. -/
def lerp (a b t : ℚ) : ℚ := a + (b - a) * t

/-- Embedding of `clamp(val, min, max)` from `math.js`. -/
def clamp (v lo hi : ℚ) : ℚ := min (max v lo) hi

/-- Embedding of one call of the closure returned by `mulberry32(seed)` in
`math.js`:

    s = (s + 0x6d2b79f5) | 0;
    let t = Math.imul(s ^ (s >>> 15), s | 1);
    t ^= t + Math.imul(t ^ (t >>> 7), t | 61);
    return ((t ^ (t >>> 14)) >>> 0) / 4294967296;

JavaScript 32-bit integers are represented by their bit patterns in
`[0, 2^32)`: the `| 0` coercion, `Math.imul` and `+` followed by a 32-bit
coercion act on patterns as addition and multiplication mod `2^32`, and
`^`, `|`, `>>>` are the pattern-level xor, or, and logical shift.
Returns the new internal state together with the raw 32-bit output word. -/
def mulberry32Step (s : ℕ) : ℕ × ℕ :=
  let s' := (s + 0x6d2b79f5) % 4294967296
  let t1 := (s' ^^^ (s' >>> 15)) * (s' ||| 1) % 4294967296
  let t2 := t1 ^^^ ((t1 + (t1 ^^^ (t1 >>> 7)) * (t1 ||| 61) % 4294967296) % 4294967296)
  (s', t2 ^^^ (t2 >>> 14))

/-- Rational value in `[0,1)` produced from one raw output word
(`((t ^ (t >>> 14)) >>> 0) / 4294967296`). -/
def mb32Val (t : ℕ) : ℚ := (t : ℚ) / 4294967296

/-- Internal state of the `mulberry32` closure after `n` calls; the seed is
coerced with `seed | 0`, i.e. reduced to its 32-bit pattern. -/
def mulberry32State (seed : ℕ) : ℕ → ℕ
  | 0 => seed % 4294967296
  | n + 1 => (mulberry32Step (mulberry32State seed n)).1

/-- Value of the `n`-th (0-indexed) call of the closure returned by
`mulberry32(seed)`. -/
def mulberry32Out (seed : ℕ) (n : ℕ) : ℚ :=
  mb32Val (mulberry32Step (mulberry32State seed n)).2

/-- Modelled from the spec: the documented mixing recipe of §4.1, all
arithmetic 32-bit unsigned with wraparound —
`s += 0x6D2B79F5; t = (s ^ (s>>15)) * (s | 1) (mod 2^32);
t ^= (t + (t ^ (t>>7)) * (t | 61)) (mod 2^32);
result = (t ^ (t>>14)) / 2^32`.  This is the reference recipe the source
implementation is compared against. -/
def specMixStep (s : ℕ) : ℕ × ℕ :=
  let s' := (s + 0x6D2B79F5) % 4294967296
  let t := (s' ^^^ (s' >>> 15)) * (s' ||| 1) % 4294967296
  let t' := t ^^^ ((t + (t ^^^ (t >>> 7)) * (t ||| 61)) % 4294967296)
  (s', t' ^^^ (t' >>> 14))

/-- Modelled from the spec: state of the reference recipe after `n` steps. -/
def specMixState (seed : ℕ) : ℕ → ℕ
  | 0 => seed % 4294967296
  | n + 1 => (specMixStep (specMixState seed n)).1

/-- Modelled from the spec: the `n`-th value of the reference sequence. -/
def specMixOut (seed : ℕ) (n : ℕ) : ℚ :=
  mb32Val (specMixStep (specMixState seed n)).2

/-- Embedding of `sampleBilinear(grid, cols, rows, u, v)` from `math.js`.
The grid is modelled as a total function `ℤ → ℤ → ℚ` (row index first) so
that the index arithmetic of the source — including which cells are read —
is preserved exactly; `Math.floor` is `Int.floor`, `Math.min` is `min`. -/
def sampleBilinear (g : ℤ → ℤ → ℚ) (cols rows : ℕ) (u v : ℚ) : ℚ :=
  let x := u * ((cols : ℚ) - 1)
  let y := v * ((rows : ℚ) - 1)
  let x0 := ⌊x⌋
  let y0 := ⌊y⌋
  let x1 := min (x0 + 1) ((cols : ℤ) - 1)
  let y1 := min (y0 + 1) ((rows : ℤ) - 1)
  let fx := x - x0
  let fy := y - y0
  g y0 x0 * (1 - fx) * (1 - fy) +
    g y0 x1 * fx * (1 - fy) +
    g y1 x0 * (1 - fx) * fy +
    g y1 x1 * fx * fy

/-- List of the four `(row, column)` index pairs `sampleBilinear` reads:
`grid[y0][x0]`, `grid[y0][x1]`, `grid[y1][x0]`, `grid[y1][x1]`. -/
def sampleBilinearAccesses (cols rows : ℕ) (u v : ℚ) : List (ℤ × ℤ) :=
  let x := u * ((cols : ℚ) - 1)
  let y := v * ((rows : ℚ) - 1)
  let x0 := ⌊x⌋
  let y0 := ⌊y⌋
  let x1 := min (x0 + 1) ((cols : ℤ) - 1)
  let y1 := min (y0 + 1) ((rows : ℤ) - 1)
  [(y0, x0), (y0, x1), (y1, x0), (y1, x1)]

/-- Predicate: all cell reads performed by `sampleBilinear` are inside the
`rows × cols` grid. -/
def sampleBilinearInBounds (cols rows : ℕ) (u v : ℚ) : Prop :=
  ∀ p ∈ sampleBilinearAccesses cols rows u v,
    0 ≤ p.1 ∧ p.1 < (rows : ℤ) ∧ 0 ≤ p.2 ∧ p.2 < (cols : ℤ)

/-- Values of the four cells `sampleBilinear` interpolates. -/
def bilinearCells (g : ℤ → ℤ → ℚ) (cols rows : ℕ) (u v : ℚ) : List ℚ :=
  (sampleBilinearAccesses cols rows u v).map fun p => g p.1 p.2

/-- Embedding of `map(value, inMin, inMax, outMin, outMax)` from `math.js`. -/
def jsMapRange (value inMin inMax outMin outMax : ℚ) : ℚ :=
  outMin + ((value - inMin) / (inMax - inMin)) * (outMax - outMin)

/-! ### Sampler dimension logic (`svg-sampler.js`) -/

/-- Dimension fields of the grid record returned by `sampleSVG`. -/
structure SVGDims where
  cols : ℕ
  rows : ℕ
  aspect : ℚ
  svgWidth : ℚ
  svgHeight : ℚ

/-- Embedding of the dimension computation of `sampleSVG(svgString,
targetCols)` in `svg-sampler.js` (lines 8–14 and the returned record):
`logoAspect = width/height`, `cols = targetCols`,
`rows = Math.max(1, Math.round(targetCols / logoAspect))`,
returned `aspect = cols / rows`.  The raster sampling of the pixels is
outside this numeric core; `width`/`height` are the dimensions parsed
from the source. -/
def sampleSVGDims (width height : ℚ) (targetCols : ℕ) : SVGDims :=
  let logoAspect := width / height
  let cols := targetCols
  let rows := (max 1 (round ((targetCols : ℚ) / logoAspect))).toNat
  { cols := cols
    rows := rows
    aspect := (cols : ℚ) / (rows : ℚ)
    svgWidth := width
    svgHeight := height }

/-! ### Shared data model of the effect modules -/

/-- Grid record as the effect modules receive it (`sampleData`): the scalar
brightness field plus its column/row counts and aspect ratio. -/
structure SampleData where
  grid : ℤ → ℤ → ℚ
  cols : ℕ
  rows : ℕ
  aspect : ℚ

/-- Line segment primitive: a vertical or horizontal dash, identified by
its constant coordinate and its two endpoint coordinates. -/
structure Seg where
  cx : ℚ
  y1 : ℚ
  y2 : ℚ

/-! ### Vertical lines (`vertical-lines.js` / `vertical-lines-anim.js`) -/

/-- Merged parameter record of the vertical-lines pair (`getDefaultParams`
keys; both files declare the same keys and defaults). -/
structure VLParams where
  rows : Option ℕ
  maxLength : ℚ
  minLength : ℚ
  minStroke : ℚ
  maxStroke : ℚ
  speed : ℚ
  waveFreq : ℚ
  color : String

/-- Caller-supplied parameter object for the vertical-lines pair: every key
may be absent (`none`).  The `rows` key may also be present with value
`null` (`some none`). -/
structure VLParamsOpt where
  rows : Option (Option ℕ) := none
  maxLength : Option ℚ := none
  minLength : Option ℚ := none
  minStroke : Option ℚ := none
  maxStroke : Option ℚ := none
  speed : Option ℚ := none
  waveFreq : Option ℚ := none
  color : Option String := none

/-- Embedding of `{ ...getDefaultParams(), ...params }` for vertical lines:
caller overrides layered over the full defaults
(`rows: null, maxLength: 1.0, minLength: 0.05, minStroke: 0.5,
maxStroke: 4.0, speed: 1.5, waveFreq: 0.10, color: '#000000'`). -/
def vlMerge (p : VLParamsOpt) : VLParams where
  rows := (p.rows).getD none
  maxLength := (p.maxLength).getD 1
  minLength := (p.minLength).getD (1/20)
  minStroke := (p.minStroke).getD (1/2)
  maxStroke := (p.maxStroke).getD 4
  speed := (p.speed).getD (3/2)
  waveFreq := (p.waveFreq).getD (1/10)
  color := (p.color).getD "#000000"

/-- Parameter object in which every key of the merged set is explicitly
present — the caller's set "completed by `getDefaultParams()`". -/
def vlComplete (p : VLParamsOpt) : VLParamsOpt where
  rows := some ((vlMerge p).rows)
  maxLength := some ((vlMerge p).maxLength)
  minLength := some ((vlMerge p).minLength)
  minStroke := some ((vlMerge p).minStroke)
  maxStroke := some ((vlMerge p).maxStroke)
  speed := some ((vlMerge p).speed)
  waveFreq := some ((vlMerge p).waveFreq)
  color := some ((vlMerge p).color)

/-- Embedding of `params.rows ?? gridRows` reading the raw caller parameter
(an absent key and an explicit `null` both fall back to the grid rows). -/
def vlRawRows (r : Option (Option ℕ)) (gridRows : ℕ) : ℕ :=
  match r with
  | some (some n) => n
  | _ => gridRows

/-- Output of the static `generate` of `vertical-lines.js`: the dash
segments of the emitted path plus the shared stroke width and color. -/
structure VLOut where
  segs : List Seg
  strokeWidth : ℚ
  color : String

/-- Embedding of `generate(sampleData, params, outputWidth, outputHeight)`
from `vertical-lines.js`.  Per cell `(c, r)`: darkness drives the dash
height `h = lerp(minLength, safeMaxLength, darkness) * cellH`; cells with
`h < 0.5` are skipped; stroke width is the min/max midpoint. -/
def vlGenerate (sd : SampleData) (p : VLParamsOpt) (outputWidth outputHeight : ℚ) : VLOut :=
  let m := vlMerge p
  let safeMaxLength := max m.maxLength m.minLength
  let cols := sd.cols
  let rows := vlRawRows p.rows sd.rows
  let cellW := outputWidth / (cols : ℚ)
  let cellH := outputHeight / (rows : ℚ)
  let strokeWidth := (m.minStroke + m.maxStroke) / 2
  let segs := (List.range cols).flatMap fun (c : ℕ) =>
    let cx := (c : ℚ) * cellW + cellW / 2
    let u := if 1 < cols then (c : ℚ) / ((cols : ℚ) - 1) else 1/2
    (List.range rows).filterMap fun (r : ℕ) =>
      let v := if 1 < rows then (r : ℚ) / ((rows : ℚ) - 1) else 1/2
      let brightness := sampleBilinear sd.grid sd.cols sd.rows u v
      let darkness := 1 - brightness
      let h := lerp m.minLength safeMaxLength darkness * cellH
      if h < 1/2 then none
      else
        let cy := (r : ℚ) * cellH + cellH / 2
        some ⟨cx, cy - h / 2, cy + h / 2⟩
  { segs := segs, strokeWidth := strokeWidth, color := m.color }

/-- Per-column record stored by the animated `init` (`colMeta` entry plus
that column's slice of `segData`, kept as `(y1, y2)` pairs rather than a
flat offset/count encoding). -/
structure VLColMeta where
  cx : ℚ
  segs : List (ℚ × ℚ)

/-- Animation state returned by `init` of `vertical-lines-anim.js`. -/
structure VLAnimState where
  colMeta : List VLColMeta
  cols : ℕ
  cellW : ℚ
  outputWidth : ℚ
  outputHeight : ℚ
  params : VLParams

/-- Embedding of `init(sampleData, params, outputWidth, outputHeight)` from
`vertical-lines-anim.js`.  Same per-cell geometry as the static generator
but with skip threshold `h < 0.3`, and `rows` read from the merged
parameters (`merged.rows ?? gridRows`). -/
def vlInit (sd : SampleData) (p : VLParamsOpt) (outputWidth outputHeight : ℚ) : VLAnimState :=
  let m := vlMerge p
  let safeMaxLength := max m.maxLength m.minLength
  let cols := sd.cols
  let rows := (m.rows).getD sd.rows
  let cellW := outputWidth / (cols : ℚ)
  let cellH := outputHeight / (rows : ℚ)
  let colMeta := (List.range cols).map fun (c : ℕ) =>
    let cx := (c : ℚ) * cellW + cellW / 2
    let u := if 1 < cols then (c : ℚ) / ((cols : ℚ) - 1) else 1/2
    let colSegs := (List.range rows).filterMap fun (r : ℕ) =>
      let v := if 1 < rows then (r : ℚ) / ((rows : ℚ) - 1) else 1/2
      let brightness := sampleBilinear sd.grid sd.cols sd.rows u v
      let darkness := 1 - brightness
      let h := lerp m.minLength safeMaxLength darkness * cellH
      if h < 3/10 then none
      else
        let cy := (r : ℚ) * cellH + cellH / 2
        some (cy - h / 2, cy + h / 2)
    VLColMeta.mk cx colSegs
  { colMeta := colMeta, cols := cols, cellW := cellW,
    outputWidth := outputWidth, outputHeight := outputHeight, params := m }

/-- Stroked segment drawn by the animated `drawFrame`. -/
structure DrawnSeg where
  strokeW : ℚ
  cx : ℚ
  y1 : ℚ
  y2 : ℚ

/-- Embedding of `drawFrame(ctx, animState, t)` from
`vertical-lines-anim.js`: the list of stroked segments it draws onto the
cleared surface at elapsed time `t`.  Columns with no segments are
skipped; the travelling wave `0.5 + 0.5*sin(t*speed - c*waveFreq)`
modulates the per-column stroke width between the order-normalized,
cell-capped stroke bounds. -/
def vlDrawFrame (jsSin : ℚ → ℚ) (st : VLAnimState) (t : ℚ) : List DrawnSeg :=
  let safeMaxStroke := max st.params.minStroke st.params.maxStroke
  let safeMinStroke := min st.params.minStroke safeMaxStroke
  let maxStrokeByCell := st.cellW * (27/20)
  let effectiveMaxStroke := min safeMaxStroke maxStrokeByCell
  let effectiveMinStroke := min safeMinStroke effectiveMaxStroke
  (List.range st.cols).flatMap fun (c : ℕ) =>
    match st.colMeta[c]? with
    | none => []
    | some meta =>
      if meta.segs.length = 0 then []
      else
        let wave := 1/2 + 1/2 * jsSin (t * st.params.speed - (c : ℚ) * st.params.waveFreq)
        let strokeW := lerp effectiveMinStroke effectiveMaxStroke wave
        meta.segs.map fun s => DrawnSeg.mk strokeW meta.cx s.1 s.2

/-- Geometry (positions and sizes) of the segments drawn at time `t`. -/
def vlDrawnGeom (jsSin : ℚ → ℚ) (st : VLAnimState) (t : ℚ) : List Seg :=
  (vlDrawFrame jsSin st t).map fun d => Seg.mk d.cx d.y1 d.y2

/-! ### Horizontal lines (`horizontal-lines.js`, static) -/

/-- Merged parameter record of horizontal lines. -/
structure HLParams where
  rows : Option ℕ
  maxLength : ℚ
  minLength : ℚ
  minStroke : ℚ
  maxStroke : ℚ
  speed : ℚ
  waveFreq : ℚ
  color : String

/-- Caller-supplied parameter object for horizontal lines. -/
structure HLParamsOpt where
  rows : Option (Option ℕ) := none
  maxLength : Option ℚ := none
  minLength : Option ℚ := none
  minStroke : Option ℚ := none
  maxStroke : Option ℚ := none
  speed : Option ℚ := none
  waveFreq : Option ℚ := none
  color : Option String := none

/-- Embedding of `{ ...getDefaultParams(), ...params }` for horizontal
lines (`minLength: 0.08`, `maxStroke: 11.0`, `waveFreq: 0.20`). -/
def hlMerge (p : HLParamsOpt) : HLParams where
  rows := (p.rows).getD none
  maxLength := (p.maxLength).getD 1
  minLength := (p.minLength).getD (2/25)
  minStroke := (p.minStroke).getD (1/2)
  maxStroke := (p.maxStroke).getD 11
  speed := (p.speed).getD (3/2)
  waveFreq := (p.waveFreq).getD (1/5)
  color := (p.color).getD "#000000"

/-- Embedding of `generate(sampleData, params, outputWidth, outputHeight)`
from `horizontal-lines.js`: per-cell horizontal dashes (`w < 0.3`
skipped), stroke width the midpoint of the order-normalized, cell-capped
stroke bounds; `rows` is always the grid row count. -/
def hlGenerate (sd : SampleData) (p : HLParamsOpt) (outputWidth outputHeight : ℚ) : VLOut :=
  let m := hlMerge p
  let safeMinStroke := min m.minStroke m.maxStroke
  let safeMaxStroke := max m.minStroke m.maxStroke
  let safeMaxLength := max m.maxLength m.minLength
  let rows := sd.rows
  let cellH := outputHeight / (rows : ℚ)
  let maxStrokeByCell := cellH * (27/20)
  let effectiveMaxStroke := min safeMaxStroke maxStrokeByCell
  let effectiveMinStroke := min safeMinStroke effectiveMaxStroke
  let strokeWidth := (effectiveMinStroke + effectiveMaxStroke) / 2
  let cols := sd.cols
  let cellW := outputWidth / (cols : ℚ)
  let segs := (List.range rows).flatMap fun (r : ℕ) =>
    let cy := (r : ℚ) * cellH + cellH / 2
    let v := if 1 < rows then (r : ℚ) / ((rows : ℚ) - 1) else 1/2
    (List.range cols).filterMap fun (c : ℕ) =>
      let u := if 1 < cols then (c : ℚ) / ((cols : ℚ) - 1) else 1/2
      let brightness := sampleBilinear sd.grid sd.cols sd.rows u v
      let darkness := 1 - brightness
      let w := lerp m.minLength safeMaxLength darkness * cellW
      if w < 3/10 then none
      else
        let cx := (c : ℚ) * cellW + cellW / 2
        some ⟨cy, cx - w / 2, cx + w / 2⟩
  { segs := segs, strokeWidth := strokeWidth, color := m.color }

/-! ### Ellipse grid (`ellipse-grid.js`, static) -/

/-- Ellipse primitive emitted by the ellipse-grid generator. -/
structure Ellipse where
  cx : ℚ
  cy : ℚ
  rx : ℚ
  ry : ℚ

/-- Caller-supplied parameter object for the ellipse grid; `cols` is the
lattice column count. -/
structure EGParamsOpt where
  cols : Option ℕ := none
  maxRy : Option ℚ := none
  eccentricity : Option ℚ := none
  speed : Option ℚ := none
  pulseFrac : Option ℚ := none
  color : Option String := none

/-- Embedding of `generate(sampleData, params, outputWidth, outputHeight)`
from `ellipse-grid.js`: lattice of `rows = max(1, round(cols / aspect))`
by `cols` ellipses, `ry = lerp(0, maxRy * outputHeight/1000, darkness)`,
`rx = max(ry * eccentricity, 0.5)`; a cell is skipped only when both
`rx < 0.3` and `ry < 0.3`. -/
def egGenerate (sd : SampleData) (p : EGParamsOpt) (outputWidth outputHeight : ℚ) :
    List Ellipse :=
  let cols := (p.cols).getD 60
  let maxRy := (p.maxRy).getD 18
  let eccentricity := (p.eccentricity).getD (2/5)
  let rows := (max 1 (round ((cols : ℚ) / sd.aspect))).toNat
  let cellW := outputWidth / (cols : ℚ)
  let cellH := outputHeight / (rows : ℚ)
  let scale := outputHeight / 1000
  let ryMax := maxRy * scale
  (List.range rows).flatMap fun (r : ℕ) =>
    (List.range cols).filterMap fun (c : ℕ) =>
      let u := if 1 < cols then (c : ℚ) / ((cols : ℚ) - 1) else 1/2
      let v := if 1 < rows then (r : ℚ) / ((rows : ℚ) - 1) else 1/2
      let brightness := sampleBilinear sd.grid sd.cols sd.rows u v
      let darkness := 1 - brightness
      let cx := (c : ℚ) * cellW + cellW / 2
      let cy := (r : ℚ) * cellH + cellH / 2
      let ry := lerp 0 ryMax darkness
      let rx := max (ry * eccentricity) (1/2)
      if rx < 3/10 ∧ ry < 3/10 then none
      else some ⟨cx, cy, rx, ry⟩

/-! ### Star glint (`star-glint.js`, static) -/

/-- Embedding of the local `pseudoRandom(seed)` of `star-glint.js`:
`x = Math.sin(seed) * 10000; return x - Math.floor(x)`, with the
platform sine supplied as `jsSin`. -/
def pseudoRandom (jsSin : ℚ → ℚ) (seed : ℚ) : ℚ :=
  let x := jsSin seed * 10000
  x - ⌊x⌋

/-- Four-pointed glyph primitive of the star-glint generator, tagged with
the normalized sample point `(u, v)` of the cell that produced it. -/
structure Glyph where
  u : ℚ
  v : ℚ
  cx : ℚ
  cy : ℚ
  scale : ℚ
  cpDist : ℚ

/-- Caller-supplied parameter object for star glint. -/
structure SGParamsOpt where
  density : Option ℚ := none
  scale : Option ℚ := none
  sharpness : Option ℚ := none
  jitter : Option ℚ := none
  speed : Option ℚ := none
  color : Option String := none

/-- Embedding of `generate(sampleData, params, outputWidth, outputHeight)`
from `star-glint.js`.  Defaults `{density: 80, scale: 15, sharpness: 0.7,
jitter: 5}`; `cols = Math.floor(density)`, square cells
`cellH = cellW = outputWidth / cols`, `rows = Math.floor(outputHeight /
cellW)`.  Cells with `darkness < 0.3` are skipped before anything is
computed; glyphs whose `currentScale < 0.5` are skipped as well. -/
def sgGenerate (jsSin : ℚ → ℚ) (jsPi : ℚ) (sd : SampleData) (p : SGParamsOpt)
    (outputWidth outputHeight : ℚ) : List Glyph :=
  let density := (p.density).getD 80
  let maxScale := (p.scale).getD 15
  let sharpness := (p.sharpness).getD (7/10)
  let jitter := (p.jitter).getD 5
  let cols : ℤ := ⌊density⌋
  let cellW := outputWidth / (cols : ℚ)
  let rows : ℤ := ⌊outputHeight / cellW⌋
  let cellH := cellW
  let minScale : ℚ := 1
  (List.range rows.toNat).flatMap fun (r : ℕ) =>
    let v := if 1 < rows then (r : ℚ) / ((rows : ℚ) - 1) else 1/2
    (List.range cols.toNat).filterMap fun (c : ℕ) =>
      let u := if 1 < cols then (c : ℚ) / ((cols : ℚ) - 1) else 1/2
      let brightness := sampleBilinear sd.grid sd.cols sd.rows u v
      let darkness := 1 - brightness
      if darkness < 3/10 then none
      else
        let seed : ℚ := (r : ℚ) * (cols : ℚ) + (c : ℚ)
        let rx := pseudoRandom jsSin (seed * (11/10)) - 1/2
        let ry := pseudoRandom jsSin (seed * (6/5)) - 1/2
        let rPhase := pseudoRandom jsSin (seed * (13/10)) * jsPi * 2
        let maxJitter := min jitter (cellW * (4/5))
        let cx := (c : ℚ) * cellW + cellW / 2 + rx * maxJitter
        let cy := (r : ℚ) * cellH + cellH / 2 + ry * maxJitter
        let wave := 1/2 + 1/2 * jsSin rPhase
        let weight := lerp (darkness * (1/5)) darkness wave
        let effectiveMaxScale := min maxScale (cellW * (3/2))
        let currentScale := lerp minScale effectiveMaxScale weight
        if currentScale < 1/2 then none
        else some ⟨u, v, cx, cy, currentScale, currentScale * (1 - sharpness)⟩

/-! ### Particle scatter (`particle-scatter.js` static /
`particle-scatter-anim.js` controller) -/

/-- Circle primitive emitted by the static particle-scatter generator. -/
structure Circle where
  cx : ℚ
  cy : ℚ
  r : ℚ

/-- Merged parameter record of the particle-scatter pair. -/
structure PSParams where
  maxDots : ℚ
  maxRadius : ℚ
  minRadius : ℚ
  seed : ℕ
  scatter : ℚ
  speed : ℚ
  color : String

/-- Caller-supplied parameter object for particle scatter. -/
structure PSParamsOpt where
  maxDots : Option ℚ := none
  maxRadius : Option ℚ := none
  minRadius : Option ℚ := none
  seed : Option ℕ := none
  scatter : Option ℚ := none
  speed : Option ℚ := none
  color : Option String := none

/-- Embedding of `{ ...getDefaultParams(), ...params }` for the static
particle scatter (`maxDots: 6000, maxRadius: 6, minRadius: 0.5, seed: 42,
scatter: 1.0, speed: 4.0`). -/
def psMerge (p : PSParamsOpt) : PSParams where
  maxDots := (p.maxDots).getD 6000
  maxRadius := (p.maxRadius).getD 6
  minRadius := (p.minRadius).getD (1/2)
  seed := (p.seed).getD 42
  scatter := (p.scatter).getD 1
  speed := (p.speed).getD 4
  color := (p.color).getD "#000000"

/-- Embedding of `{ ...getDefaultParams(), ...params }` for the animated
particle scatter (same keys, `speed: 1.8`). -/
def psaMerge (p : PSParamsOpt) : PSParams where
  maxDots := (p.maxDots).getD 6000
  maxRadius := (p.maxRadius).getD 6
  minRadius := (p.minRadius).getD (1/2)
  seed := (p.seed).getD 42
  scatter := (p.scatter).getD 1
  speed := (p.speed).getD (9/5)
  color := (p.color).getD "#000000"

/-- Parameter object in which every key of the merged animated set is
explicitly present. -/
def psaComplete (p : PSParamsOpt) : PSParamsOpt where
  maxDots := some ((psaMerge p).maxDots)
  maxRadius := some ((psaMerge p).maxRadius)
  minRadius := some ((psaMerge p).minRadius)
  seed := some ((psaMerge p).seed)
  scatter := some ((psaMerge p).scatter)
  speed := some ((psaMerge p).speed)
  color := some ((psaMerge p).color)

/-- Embedding of the per-cell weight loop of particle scatter:
`w = Math.pow(1 - grid[r][c], 1.8) + 0.02`, row-major (the platform
power function is supplied as `jsPow`). -/
def psCellWeights (jsPow : ℚ → ℚ → ℚ) (g : ℤ → ℤ → ℚ) (gridCols gridRows : ℕ) : List ℚ :=
  (List.range gridRows).flatMap fun (r : ℕ) =>
    (List.range gridCols).map fun (c : ℕ) => jsPow (1 - g r c) (9/5) + 1/50

/-- Running cumulative sums of a list, as pushed into `weights` by the
source's accumulation loop (`totalWeight += w; weights.push(totalWeight)`). -/
def cumsumGo (acc : ℚ) : List ℚ → List ℚ
  | [] => []
  | w :: ws => (acc + w) :: cumsumGo (acc + w) ws

/-- Cumulative weight table (`weights` array) of particle scatter. -/
def cumsum (l : List ℚ) : List ℚ := cumsumGo 0 l

/-- Embedding of the weighted-pick binary search
(`while (lo < hi) { mid = (lo+hi)>>>1; if (weights[mid] < target)
lo = mid+1; else hi = mid }`), translated with explicit fuel; one fuel
unit per iteration and the range `hi - lo` strictly shrinks each
iteration, so fuel `ws.length` never runs out. -/
def wsearchGo (ws : List ℚ) (target : ℚ) : ℕ → ℕ → ℕ → ℕ
  | 0, lo, _ => lo
  | fuel + 1, lo, hi =>
    if lo < hi then
      let mid := (lo + hi) >>> 1
      if ws.getD mid 0 < target then wsearchGo ws target fuel (mid + 1) hi
      else wsearchGo ws target fuel lo mid
    else lo

/-- Weighted-pick binary search over the cumulative table: starts at
`lo = 0`, `hi = weights.length - 1`. -/
def wsearch (ws : List ℚ) (target : ℚ) : ℕ :=
  wsearchGo ws target ws.length 0 (ws.length - 1)

/-- Rand call of the `mulberry32` closure: new state plus `[0,1)` value. -/
def rand (s : ℕ) : ℕ × ℚ := ((mulberry32Step s).1, mb32Val (mulberry32Step s).2)

/-- Loop-invariant context of the static particle-scatter dot loop. -/
structure PSEnv where
  jsSin : ℚ → ℚ
  jsPi : ℚ
  grid : ℤ → ℤ → ℚ
  gridCols : ℕ
  gridRows : ℕ
  weights : List ℚ
  totalWeight : ℚ
  cellW : ℚ
  cellH : ℚ
  outputWidth : ℚ
  outputHeight : ℚ
  safeMinRadius : ℚ
  safeMaxRadius : ℚ
  scatter : ℚ

/-- State threaded through the dot loop: PRNG state and emitted circles. -/
structure PSState where
  rng : ℕ
  circles : List Circle

/-- Embedding of one iteration of the static particle-scatter dot loop
(`particle-scatter.js` lines 240–275): weighted cell pick, jittered
position, bounds test, darkness re-sampling at the jittered position,
radius derivation and the two `< 0.15` size cutoffs.  Each `rand()` call
advances the PRNG state; the components of each call are bound
separately. -/
def psStep (env : PSEnv) (st : PSState) : PSState :=
  let s1 := (rand st.rng).1
  let r1 := (rand st.rng).2
  let target := r1 * env.totalWeight
  let cellIndex := wsearch env.weights target
  let cr := cellIndex / env.gridCols
  let cc := cellIndex % env.gridCols
  let s2 := (rand s1).1
  let r2 := (rand s1).2
  let px := ((cc : ℚ) + 1/2 + (r2 - 1/2) * (1 + env.scatter)) * env.cellW
  let s3 := (rand s2).1
  let r3 := (rand s2).2
  let py := ((cr : ℚ) + 1/2 + (r3 - 1/2) * (1 + env.scatter)) * env.cellH
  if px < 0 ∨ px > env.outputWidth ∨ py < 0 ∨ py > env.outputHeight then
    { rng := s3, circles := st.circles }
  else
    let u := px / env.outputWidth
    let v := py / env.outputHeight
    let darkness := 1 - sampleBilinear env.grid env.gridCols env.gridRows u v
    let s4 := (rand s3).1
    let r4 := (rand s3).2
    let baseR := lerp env.safeMinRadius env.safeMaxRadius (darkness * (3/10 + r4 * (7/10)))
    if baseR < 3/20 then { rng := s4, circles := st.circles }
    else
      let s5 := (rand s4).1
      let r5 := (rand s4).2
      let ph := r5 * env.jsPi * 2
      let pulse := 1/2 + 1/2 * env.jsSin ph
      let r := lerp env.safeMinRadius baseR pulse
      if r < 3/20 then { rng := s5, circles := st.circles }
      else { rng := s5, circles := st.circles ++ [⟨px, py, r⟩] }

/-- Dot loop iterated `dotCount` times (the loop index is not read by the
body, so the loop is iteration-count recursion). -/
def psLoop (env : PSEnv) : ℕ → PSState → PSState
  | 0, st => st
  | n + 1, st => psLoop env n (psStep env st)

/-- Embedding of `generate(sampleData, params, outputWidth, outputHeight)`
from `particle-scatter.js`, returning the emitted circle list (the SVG
document wrapper around it is not modelled).  `densityPower = 1.8`,
`dotCount = Math.max(1, Math.round(maxDots))`; an all-zero weight total
returns the empty document. -/
def psGenerate (jsSin : ℚ → ℚ) (jsPow : ℚ → ℚ → ℚ) (jsPi : ℚ) (sd : SampleData)
    (p : PSParamsOpt) (outputWidth outputHeight : ℚ) : List Circle :=
  let m := psMerge p
  let safeMinRadius := min m.minRadius m.maxRadius
  let safeMaxRadius := max m.minRadius m.maxRadius
  let dotCount := (max 1 (round m.maxDots)).toNat
  let cellWs := psCellWeights jsPow sd.grid sd.cols sd.rows
  let totalWeight := cellWs.sum
  if totalWeight = 0 then []
  else
    let env : PSEnv :=
      { jsSin := jsSin, jsPi := jsPi, grid := sd.grid,
        gridCols := sd.cols, gridRows := sd.rows,
        weights := cumsum cellWs, totalWeight := totalWeight,
        cellW := outputWidth / (sd.cols : ℚ), cellH := outputHeight / (sd.rows : ℚ),
        outputWidth := outputWidth, outputHeight := outputHeight,
        safeMinRadius := safeMinRadius, safeMaxRadius := safeMaxRadius,
        scatter := m.scatter }
    (psLoop env dotCount { rng := m.seed % 4294967296, circles := [] }).circles

/-- Dot record precomputed by the animated `init` of
`particle-scatter-anim.js` (position, base radius, phase). -/
structure PSADot where
  x : ℚ
  y : ℚ
  baseR : ℚ
  ph : ℚ

/-- Animation state returned by `init` of `particle-scatter-anim.js`. -/
structure PSAState where
  dots : List PSADot
  outputWidth : ℚ
  outputHeight : ℚ
  params : PSParams

/-- One iteration of the animated init's dot loop (`particle-scatter-anim.js`
lines 60–91): like the static loop but stores `(x, y, baseR, ph)` and has
no second radius cutoff.  State is the PRNG state plus the dot list. -/
def psaStep (env : PSEnv) (st : ℕ × List PSADot) : ℕ × List PSADot :=
  let s1 := (rand st.1).1
  let r1 := (rand st.1).2
  let target := r1 * env.totalWeight
  let cellIndex := wsearch env.weights target
  let cr := cellIndex / env.gridCols
  let cc := cellIndex % env.gridCols
  let s2 := (rand s1).1
  let r2 := (rand s1).2
  let x := ((cc : ℚ) + 1/2 + (r2 - 1/2) * (1 + env.scatter)) * env.cellW
  let s3 := (rand s2).1
  let r3 := (rand s2).2
  let y := ((cr : ℚ) + 1/2 + (r3 - 1/2) * (1 + env.scatter)) * env.cellH
  if x < 0 ∨ x > env.outputWidth ∨ y < 0 ∨ y > env.outputHeight then
    (s3, st.2)
  else
    let u := x / env.outputWidth
    let v := y / env.outputHeight
    let darkness := 1 - sampleBilinear env.grid env.gridCols env.gridRows u v
    let s4 := (rand s3).1
    let r4 := (rand s3).2
    let baseR := lerp env.safeMinRadius env.safeMaxRadius (darkness * (3/10 + r4 * (7/10)))
    if baseR < 3/20 then (s4, st.2)
    else
      let s5 := (rand s4).1
      let r5 := (rand s4).2
      (s5, st.2 ++ [⟨x, y, baseR, r5 * env.jsPi * 2⟩])

/-- Iterated animated init dot loop. -/
def psaLoop (env : PSEnv) : ℕ → ℕ × List PSADot → ℕ × List PSADot
  | 0, st => st
  | n + 1, st => psaLoop env n (psaStep env st)

/-- Embedding of `init(sampleData, params, outputWidth, outputHeight)` from
`particle-scatter-anim.js`.  All reads go through the merged parameters;
the returned state stores the merged parameters again
(`params: { ...getDefaultParams(), ...params }`). -/
def psaInit (jsPow : ℚ → ℚ → ℚ) (jsPi : ℚ) (sd : SampleData) (p : PSParamsOpt)
    (outputWidth outputHeight : ℚ) : PSAState :=
  let m := psaMerge p
  let safeMinRadius := min m.minRadius m.maxRadius
  let safeMaxRadius := max m.minRadius m.maxRadius
  let dotCount := (max 1 (round m.maxDots)).toNat
  let cellWs := psCellWeights jsPow sd.grid sd.cols sd.rows
  let env : PSEnv :=
    { jsSin := fun _ => 0, jsPi := jsPi, grid := sd.grid,
      gridCols := sd.cols, gridRows := sd.rows,
      weights := cumsum cellWs, totalWeight := cellWs.sum,
      cellW := outputWidth / (sd.cols : ℚ), cellH := outputHeight / (sd.rows : ℚ),
      outputWidth := outputWidth, outputHeight := outputHeight,
      safeMinRadius := safeMinRadius, safeMaxRadius := safeMaxRadius,
      scatter := m.scatter }
  { dots := (psaLoop env dotCount (m.seed % 4294967296, [])).2,
    outputWidth := outputWidth, outputHeight := outputHeight, params := m }

/-! ### Concrete instances used by counterexamples and witnesses -/

/-- Oracle instantiation of the platform sine with the constant-zero
function (used only where the verified output is independent of it). -/
def sinZero : ℚ → ℚ := fun _ => 0

/-- Oracle instantiation of the platform power function returning zero;
it agrees with `Math.pow` at the only base this development applies it
to (`Math.pow(0, 1.8) = 0`). -/
def powZero : ℚ → ℚ → ℚ := fun _ _ => 0

/-- Rational value of the IEEE-754 double `Math.PI`. -/
def piDouble : ℚ := 884279719003555 / 281474976710656

/-- Constant all-white brightness field (`brightness = 1` everywhere). -/
def whiteGrid : ℤ → ℤ → ℚ := fun _ _ => 1

/-- Sample data of a 10×10 all-white grid. -/
def white10 : SampleData := ⟨whiteGrid, 10, 10, 1⟩

/-- Sample data of a 1×1 all-white grid. -/
def white1 : SampleData := ⟨whiteGrid, 1, 1, 1⟩

/-- Sample data of a 1×1 grid of brightness `0.6`. -/
def gray1 : SampleData := ⟨fun _ _ => 3/5, 1, 1, 1⟩

/-- Sample data of a 1×1 all-black grid. -/
def black1 : SampleData := ⟨fun _ _ => 0, 1, 1, 1⟩

/-- Empty caller parameter object for the vertical-lines pair. -/
def vlNoParams : VLParamsOpt := {}

/-- Vertical-lines parameters with the default length pair submitted
swapped (`minLength := 1.0, maxLength := 0.05`). -/
def vlSwappedLen : VLParamsOpt := { maxLength := some (1/20), minLength := some 1 }

/-- Empty caller parameter object for particle scatter (defaults only). -/
def psNoParams : PSParamsOpt := {}

/-- Particle-scatter parameters `{ maxDots: 1, seed: 2 }`. -/
def psOneDotSeed2 : PSParamsOpt := { maxDots := some 1, seed := some 2 }

/-- Ellipse-grid parameters `{ cols: 1 }`. -/
def egColsOne : EGParamsOpt := { cols := some 1 }

/-- Star-glint parameters `{ density: 1 }`. -/
def sgDensityOne : SGParamsOpt := { density := some 1 }

/-- Concrete 2-row × 3-column grid `g r c = r + 2c` used by witnesses. -/
def gRC : ℤ → ℤ → ℚ := fun r c => (r : ℚ) + 2 * (c : ℚ)

/-! ### Claim C2 — the seeded sequence generator -/

theorem add_mod_mod_32 (a b : ℕ) :
    (a + b % 4294967296) % 4294967296 = (a + b) % 4294967296 := by
  omega

theorem specMixStep_eq (s : ℕ) : specMixStep s = mulberry32Step s := by
  unfold specMixStep mulberry32Step
  dsimp only
  rw [add_mod_mod_32]

theorem specMixState_eq (seed n : ℕ) : specMixState seed n = mulberry32State seed n := by
  induction n with
  | zero => rfl
  | succ n ih => simp [specMixState, mulberry32State, specMixStep_eq, ih]

theorem mulberry32Step_out_lt (s : ℕ) : (mulberry32Step s).2 < 4294967296 := by
  unfold mulberry32Step
  dsimp only
  have h32 : (4294967296 : ℕ) = 2 ^ 32 := by norm_num
  have ht1 : (s + 0x6d2b79f5) % 4294967296 < 4294967296 := Nat.mod_lt _ (by norm_num)
  set s' := (s + 0x6d2b79f5) % 4294967296 with hs'
  set t1 := (s' ^^^ (s' >>> 15)) * (s' ||| 1) % 4294967296 with ht1def
  have h1 : t1 < 2 ^ 32 := by rw [← h32]; exact Nat.mod_lt _ (by norm_num)
  set m := (t1 + (t1 ^^^ (t1 >>> 7)) * (t1 ||| 61) % 4294967296) % 4294967296 with hm
  have h2 : m < 2 ^ 32 := by rw [← h32]; exact Nat.mod_lt _ (by norm_num)
  have h3 : t1 ^^^ m < 2 ^ 32 := Nat.xor_lt_two_pow h1 h2
  set t2 := t1 ^^^ m with ht2
  have h4 : t2 >>> 14 < 2 ^ 32 := by
    calc t2 >>> 14 ≤ t2 := by
          rw [Nat.shiftRight_eq_div_pow]; exact Nat.div_le_self _ _
      _ < 2 ^ 32 := h3
  rw [h32]
  exact Nat.xor_lt_two_pow h3 h4

theorem mb32Val_nonneg (t : ℕ) : 0 ≤ mb32Val t := by
  unfold mb32Val
  positivity

theorem mb32Val_lt_one {t : ℕ} (h : t < 4294967296) : mb32Val t < 1 := by
  unfold mb32Val
  rw [div_lt_one (by norm_num)]
  exact_mod_cast h

/-- C2: for every 32-bit seed, each value produced by `mulberry32(seed)` is
exactly the value of the documented mixing recipe (32-bit unsigned
wraparound arithmetic), so the two output sequences are bit-identical,
and every output value lies in `[0, 1)`. -/
theorem c2_mulberry32_matches_recipe (seed n : ℕ) :
    mulberry32Out seed n = specMixOut seed n ∧
    0 ≤ mulberry32Out seed n ∧ mulberry32Out seed n < 1 := by
  refine ⟨?_, mb32Val_nonneg _, mb32Val_lt_one (mulberry32Step_out_lt _)⟩
  unfold mulberry32Out specMixOut
  rw [specMixState_eq, specMixStep_eq]

/-! ### Claim C5 — sampler aspect invariant -/

/-- C5: for declared source dimensions `width × height` (aspect
`A = width/height`) and target column count `C`, the sampler returns
`cols = C`, `rows = max(1, round(C / A))`, an `aspect` field equal to
`cols / rows`, and — whenever the rounded row count is positive, so the
`max` clamp is inactive — `rows` is within `1/2` of `C / A`, i.e. the
returned aspect approximates `A` within rounding tolerance. -/
theorem c5_sampler_aspect (w h : ℚ) (C : ℕ) :
    (sampleSVGDims w h C).cols = C ∧
    ((sampleSVGDims w h C).rows : ℤ) = max 1 (round ((C : ℚ) / (w / h))) ∧
    (sampleSVGDims w h C).aspect = (C : ℚ) / ((sampleSVGDims w h C).rows : ℚ) ∧
    (0 < round ((C : ℚ) / (w / h)) →
      |((sampleSVGDims w h C).rows : ℚ) - (C : ℚ) / (w / h)| ≤ 1 / 2) := by
  have hnn : (0 : ℤ) ≤ max 1 (round ((C : ℚ) / (w / h))) :=
    le_trans zero_le_one (le_max_left _ _)
  have hrows : ((sampleSVGDims w h C).rows : ℤ) = max 1 (round ((C : ℚ) / (w / h))) := by
    unfold sampleSVGDims
    exact Int.toNat_of_nonneg hnn
  refine ⟨rfl, hrows, rfl, fun hpos => ?_⟩
  have hmax : max 1 (round ((C : ℚ) / (w / h))) = round ((C : ℚ) / (w / h)) :=
    max_eq_right hpos
  have hcast : ((sampleSVGDims w h C).rows : ℚ) = ((round ((C : ℚ) / (w / h)) : ℤ) : ℚ) := by
    rw [← hmax]
    exact_mod_cast congrArg (fun z : ℤ => (z : ℚ)) hrows
  rw [hcast, abs_sub_comm]
  exact abs_sub_round _

/-- Witness for C5 at `width = 4, height = 1, C = 300`: the rounded row
count `round 75 = 75` is positive and the approximation bound holds. -/
theorem c5_witness :
    |((sampleSVGDims 4 1 300).rows : ℚ) - (300 : ℚ) / (4 / 1)| ≤ 1 / 2 :=
  (c5_sampler_aspect 4 1 300).2.2.2 (by norm_num)

/-! ### Claim C10 — in-bounds discipline of the bilinear sampler -/

/-- C10 counterexample: the claim's "exactly when `0 ≤ u ≤ 1` and
`0 ≤ v ≤ 1` (negative u or v would index out of bounds)" is false — on a
1×1 grid the coordinate `x = u * (cols - 1)` collapses to `0`, so
`u = -1` performs only in-bounds accesses although `u < 0`. -/
theorem c10_counterexample :
    sampleBilinearInBounds 1 1 (-1) 0 ∧ ¬ (0 ≤ (-1 : ℚ)) := by
  constructor
  · intro p hp
    obtain ⟨a, b⟩ := p
    simp only [sampleBilinearAccesses] at hp
    norm_num at hp
    obtain ⟨rfl, rfl⟩ := hp
    norm_num
  · norm_num

/-- C10 (amended): `sampleBilinear` performs only in-bounds accesses
whenever `cols, rows ≥ 1` and `0 ≤ u, v ≤ 1`; a negative `u` does index
out of bounds once `cols ≥ 2` (the lower edge is unclamped), but not on a
single-column grid; and the effect call sites construct `u, v` in `[0,1]`
by construction — lattice coordinates `c/(cols-1)` for `c < cols`
(falling back to `0.5` for a single column), and normalized positions
`x / W` for bounds-checked `0 ≤ x ≤ W`. -/
theorem c10_inbounds (cols rows : ℕ) (u v : ℚ) :
    (1 ≤ cols → 1 ≤ rows → 0 ≤ u → u ≤ 1 → 0 ≤ v → v ≤ 1 →
      sampleBilinearInBounds cols rows u v) ∧
    (2 ≤ cols → u < 0 → ¬ sampleBilinearInBounds cols rows u v) ∧
    (∀ c : ℕ, c < cols →
      0 ≤ (if 1 < cols then (c : ℚ) / ((cols : ℚ) - 1) else 1/2) ∧
      (if 1 < cols then (c : ℚ) / ((cols : ℚ) - 1) else 1/2) ≤ 1) ∧
    (∀ x W : ℚ, 0 < W → 0 ≤ x → x ≤ W → 0 ≤ x / W ∧ x / W ≤ 1) := by
  refine ⟨?_, ?_, ?_, ?_⟩
  · intro hc hr hu0 hu1 hv0 hv1
    have hcQ : (0 : ℚ) ≤ (cols : ℚ) - 1 := by
      have : (1 : ℚ) ≤ (cols : ℚ) := by exact_mod_cast hc
      linarith
    have hrQ : (0 : ℚ) ≤ (rows : ℚ) - 1 := by
      have : (1 : ℚ) ≤ (rows : ℚ) := by exact_mod_cast hr
      linarith
    have hx0 : (0 : ℤ) ≤ ⌊u * ((cols : ℚ) - 1)⌋ :=
      Int.floor_nonneg.mpr (mul_nonneg hu0 hcQ)
    have hy0 : (0 : ℤ) ≤ ⌊v * ((rows : ℚ) - 1)⌋ :=
      Int.floor_nonneg.mpr (mul_nonneg hv0 hrQ)
    have hfc : ⌊((cols : ℚ) - 1)⌋ = (cols : ℤ) - 1 := by
      rw [show ((cols : ℚ) - 1) = (((cols : ℤ) - 1 : ℤ) : ℚ) by push_cast; ring,
        Int.floor_intCast]
    have hfr : ⌊((rows : ℚ) - 1)⌋ = (rows : ℤ) - 1 := by
      rw [show ((rows : ℚ) - 1) = (((rows : ℤ) - 1 : ℤ) : ℚ) by push_cast; ring,
        Int.floor_intCast]
    have hxu : ⌊u * ((cols : ℚ) - 1)⌋ ≤ (cols : ℤ) - 1 := by
      have hle : u * ((cols : ℚ) - 1) ≤ (cols : ℚ) - 1 := by
        nlinarith
      have h2 := Int.floor_le_floor hle
      rwa [hfc] at h2
    have hyv : ⌊v * ((rows : ℚ) - 1)⌋ ≤ (rows : ℤ) - 1 := by
      have hle : v * ((rows : ℚ) - 1) ≤ (rows : ℚ) - 1 := by
        nlinarith
      have h2 := Int.floor_le_floor hle
      rwa [hfr] at h2
    have hcZ : (1 : ℤ) ≤ (cols : ℤ) := by exact_mod_cast hc
    have hrZ : (1 : ℤ) ≤ (rows : ℤ) := by exact_mod_cast hr
    intro p hp
    simp only [sampleBilinearAccesses, List.mem_cons, List.mem_singleton,
      List.not_mem_nil, or_false] at hp
    rcases hp with rfl | rfl | rfl | rfl <;>
      refine ⟨?_, ?_, ?_, ?_⟩ <;>
      simp only [le_min_iff, min_lt_iff, lt_min_iff] <;> omega
  · intro hc hu hB
    have hcQ : (0 : ℚ) < (cols : ℚ) - 1 := by
      have : (2 : ℚ) ≤ (cols : ℚ) := by exact_mod_cast hc
      linarith
    have hxneg : u * ((cols : ℚ) - 1) < 0 := mul_neg_of_neg_of_pos hu hcQ
    have hfl : ⌊u * ((cols : ℚ) - 1)⌋ < 0 := by
      rw [Int.floor_lt]
      exact_mod_cast hxneg
    have := hB (⌊v * ((rows : ℚ) - 1)⌋, ⌊u * ((cols : ℚ) - 1)⌋) (by
      simp [sampleBilinearAccesses])
    omega
  · intro c hc
    by_cases h : 1 < cols
    · have hden : (0 : ℚ) < (cols : ℚ) - 1 := by
        have : (2 : ℚ) ≤ (cols : ℚ) := by exact_mod_cast h
        linarith
      rw [if_pos h]
      constructor
      · exact div_nonneg (by positivity) (le_of_lt hden)
      · rw [div_le_one hden]
        have : (c : ℚ) + 1 ≤ (cols : ℚ) := by exact_mod_cast hc
        linarith
    · rw [if_neg h]
      norm_num
  · intro x W hW hx0 hxW
    exact ⟨div_nonneg hx0 (le_of_lt hW), by rw [div_le_one hW]; exact hxW⟩

/-- Witness for C10 at `cols = rows = 2`: `u = v = 1/2` keeps every access
in bounds, while `u = -1/2` indexes out of bounds. -/
theorem c10_witness :
    sampleBilinearInBounds 2 2 (1/2) (1/2) ∧
    ¬ sampleBilinearInBounds 2 2 (-(1/2)) 0 :=
  ⟨(c10_inbounds 2 2 (1/2) (1/2)).1 (by norm_num) (by norm_num) (by norm_num)
      (by norm_num) (by norm_num) (by norm_num),
    (c10_inbounds 2 2 (-(1/2)) 0).2.1 (by norm_num) (by norm_num)⟩

/-! ### Claim C4 — bilinear sampler reproduction and bounds -/

/-- Evaluation of the bilinear sampler when both scaled coordinates are
exact integers: the fractional parts vanish and the sample is the single
cell `grid[yi][xi]`. -/
theorem sampleBilinear_exact (g : ℤ → ℤ → ℚ) (cols rows : ℕ) {u v : ℚ} {xi yi : ℤ}
    (hx : u * ((cols : ℚ) - 1) = (xi : ℚ)) (hy : v * ((rows : ℚ) - 1) = (yi : ℚ)) :
    sampleBilinear g cols rows u v = g yi xi := by
  unfold sampleBilinear
  dsimp only
  rw [hx, hy, Int.floor_intCast, Int.floor_intCast]
  ring

/-- C4: the bilinear sampler (i) reproduces a cell's value when sampled at
that cell's exact center `(c/(cols-1), r/(rows-1))`, (ii) reproduces the
corner cells at the four field corners `u, v ∈ {0, 1}` (with overflow
clamped to the last row/column), and (iii) for `u, v ∈ [0, 1]` stays
within any bounds enclosing its four source cells — in particular within
their minimum and maximum. -/
theorem c4_bilinear (g : ℤ → ℤ → ℚ) (cols rows : ℕ) :
    (∀ r c : ℕ, r < rows → c < cols →
      sampleBilinear g cols rows ((c : ℚ) / ((cols : ℚ) - 1)) ((r : ℚ) / ((rows : ℚ) - 1)) =
        g (r : ℤ) (c : ℤ)) ∧
    (1 ≤ cols → 1 ≤ rows →
      sampleBilinear g cols rows 0 0 = g 0 0 ∧
      sampleBilinear g cols rows 1 0 = g 0 ((cols : ℤ) - 1) ∧
      sampleBilinear g cols rows 0 1 = g ((rows : ℤ) - 1) 0 ∧
      sampleBilinear g cols rows 1 1 = g ((rows : ℤ) - 1) ((cols : ℤ) - 1)) ∧
    (∀ u v lo hi : ℚ, 0 ≤ u → u ≤ 1 → 0 ≤ v → v ≤ 1 →
      (∀ q ∈ bilinearCells g cols rows u v, lo ≤ q ∧ q ≤ hi) →
      lo ≤ sampleBilinear g cols rows u v ∧ sampleBilinear g cols rows u v ≤ hi) := by
  have hcenter : ∀ (n : ℕ) (k : ℕ), k < n → (k : ℚ) / ((n : ℚ) - 1) * ((n : ℚ) - 1) = ((k : ℤ) : ℚ) := by
    intro n k hk
    by_cases hd : ((n : ℚ) - 1) = 0
    · have hn1 : n = 1 := by
        have : (n : ℚ) = 1 := by linarith
        exact_mod_cast this
      have hk0 : k = 0 := by omega
      subst hn1; subst hk0
      norm_num
    · rw [div_mul_cancel₀ _ hd]
      push_cast
      ring
  refine ⟨?_, ?_, ?_⟩
  · intro r c hr hc
    exact sampleBilinear_exact g cols rows (hcenter cols c hc) (hcenter rows r hr)
  · intro _ _
    refine ⟨?_, ?_, ?_, ?_⟩ <;>
      refine sampleBilinear_exact g cols rows ?_ ?_ <;>
      push_cast <;> ring
  · intro u v lo hi hu0 hu1 hv0 hv1 hq
    have h00 := hq (g ⌊v * ((rows : ℚ) - 1)⌋ ⌊u * ((cols : ℚ) - 1)⌋)
      (by simp [bilinearCells, sampleBilinearAccesses])
    have h01 := hq (g ⌊v * ((rows : ℚ) - 1)⌋ (min (⌊u * ((cols : ℚ) - 1)⌋ + 1) ((cols : ℤ) - 1)))
      (by simp [bilinearCells, sampleBilinearAccesses])
    have h10 := hq (g (min (⌊v * ((rows : ℚ) - 1)⌋ + 1) ((rows : ℤ) - 1)) ⌊u * ((cols : ℚ) - 1)⌋)
      (by simp [bilinearCells, sampleBilinearAccesses])
    have h11 := hq (g (min (⌊v * ((rows : ℚ) - 1)⌋ + 1) ((rows : ℤ) - 1))
        (min (⌊u * ((cols : ℚ) - 1)⌋ + 1) ((cols : ℤ) - 1)))
      (by simp [bilinearCells, sampleBilinearAccesses])
    unfold sampleBilinear
    dsimp only
    set X := u * ((cols : ℚ) - 1) with hX
    set Y := v * ((rows : ℚ) - 1) with hY
    set q00 := g ⌊Y⌋ ⌊X⌋ with hq00
    set q01 := g ⌊Y⌋ (min (⌊X⌋ + 1) ((cols : ℤ) - 1)) with hq01
    set q10 := g (min (⌊Y⌋ + 1) ((rows : ℤ) - 1)) ⌊X⌋ with hq10
    set q11 := g (min (⌊Y⌋ + 1) ((rows : ℤ) - 1)) (min (⌊X⌋ + 1) ((cols : ℤ) - 1)) with hq11
    have ha0 : (0 : ℚ) ≤ X - (⌊X⌋ : ℚ) := by
      have := Int.floor_le X; linarith
    have ha1 : X - (⌊X⌋ : ℚ) ≤ 1 := by
      have := Int.lt_floor_add_one X; linarith
    have hb0 : (0 : ℚ) ≤ Y - (⌊Y⌋ : ℚ) := by
      have := Int.floor_le Y; linarith
    have hb1 : Y - (⌊Y⌋ : ℚ) ≤ 1 := by
      have := Int.lt_floor_add_one Y; linarith
    set a := X - (⌊X⌋ : ℚ) with ha
    set b := Y - (⌊Y⌋ : ℚ) with hb
    have ha1' : (0 : ℚ) ≤ 1 - a := by linarith
    have hb1' : (0 : ℚ) ≤ 1 - b := by linarith
    constructor
    · nlinarith [mul_nonneg (mul_nonneg (sub_nonneg.2 h00.1) ha1') hb1',
        mul_nonneg (mul_nonneg (sub_nonneg.2 h01.1) ha0) hb1',
        mul_nonneg (mul_nonneg (sub_nonneg.2 h10.1) ha1') hb0,
        mul_nonneg (mul_nonneg (sub_nonneg.2 h11.1) ha0) hb0]
    · nlinarith [mul_nonneg (mul_nonneg (sub_nonneg.2 h00.2) ha1') hb1',
        mul_nonneg (mul_nonneg (sub_nonneg.2 h01.2) ha0) hb1',
        mul_nonneg (mul_nonneg (sub_nonneg.2 h10.2) ha1') hb0,
        mul_nonneg (mul_nonneg (sub_nonneg.2 h11.2) ha0) hb0]

/-- Witness for C4 on the concrete grid `gRC` (3 columns, 2 rows): center
reproduction at cell `(0, 1)`, corner reproduction at `(1, 1)`, and the
interpolation bound at `(u, v) = (0, 0)`. -/
theorem c4_witness :
    sampleBilinear gRC 3 2 ((1 : ℚ) / ((3 : ℚ) - 1)) ((0 : ℚ) / ((2 : ℚ) - 1)) =
      gRC ((0 : ℕ) : ℤ) ((1 : ℕ) : ℤ) ∧
    sampleBilinear gRC 3 2 1 1 = gRC ((2 : ℤ) - 1) ((3 : ℤ) - 1) ∧
    0 ≤ sampleBilinear gRC 3 2 0 0 ∧ sampleBilinear gRC 3 2 0 0 ≤ 3 :=
  ⟨(c4_bilinear gRC 3 2).1 0 1 (by norm_num) (by norm_num),
    ((c4_bilinear gRC 3 2).2.1 (by norm_num) (by norm_num)).2.2.2,
    (c4_bilinear gRC 3 2).2.2 0 0 0 3 (by norm_num) (by norm_num) (by norm_num) (by norm_num)
      (by
        intro q hq
        norm_num [bilinearCells, sampleBilinearAccesses, gRC] at hq
        rcases hq with rfl | rfl | rfl | rfl <;> norm_num)⟩

/-! ### Claim C6 — overrides layered over full defaults -/

/-- C6: calling an entry point with a partial parameter object returns the
same result as calling it with that object completed by
`getDefaultParams()` — any missing key silently falls back to its
default.  Proved for the two cited entry points: the static
`vertical-lines.js` `generate` (including its raw `params.rows ??
gridRows` read) and the `particle-scatter-anim.js` `init`. -/
theorem c6_defaults_merge :
    (∀ (sd : SampleData) (p : VLParamsOpt) (W H : ℚ),
      vlGenerate sd p W H = vlGenerate sd (vlComplete p) W H) ∧
    (∀ (jsPow : ℚ → ℚ → ℚ) (jsPi : ℚ) (sd : SampleData) (p : PSParamsOpt) (W H : ℚ),
      psaInit jsPow jsPi sd p W H = psaInit jsPow jsPi sd (psaComplete p) W H) := by
  constructor
  · intro sd p W H
    obtain ⟨r, ml, mn, ms, mx, sp, wf, co⟩ := p
    rcases r with _ | r
    · rfl
    · rcases r with _ | n <;> rfl
  · intro jsPow jsPi sd p W H
    rfl

/-! ### Claim C7 — min/max parameter pair symmetry -/

/-- Evaluation of the bilinear sampler on a constant field: the four
interpolation weights sum to one, so the sample is the constant. -/
theorem sampleBilinear_const (q : ℚ) (cols rows : ℕ) (u v : ℚ) :
    sampleBilinear (fun _ _ => q) cols rows u v = q := by
  unfold sampleBilinear
  dsimp only
  ring

/-- Evaluation of the bilinear sampler on the all-white field. -/
theorem sampleBilinear_white (cols rows : ℕ) (u v : ℚ) :
    sampleBilinear whiteGrid cols rows u v = 1 :=
  sampleBilinear_const 1 cols rows u v

/-- C7 counterexample: swapping the `minLength`/`maxLength` pair of the
vertical-lines generator changes the output.  On a 1×1 all-white grid
with output 1×10, the defaults (`minLength = 0.05, maxLength = 1.0`)
emit the dash `(1/2, 19/4)–(1/2, 21/4)`, while the swapped pair emits
`(1/2, 0)–(1/2, 10)`: only `safeMaxLength = max(maxLength, minLength)`
is order-normalized and the raw `minLength` enters the lerp. -/
theorem c7_counterexample :
    vlGenerate white1 vlNoParams 1 10 ≠ vlGenerate white1 vlSwappedLen 1 10 := by
  have h1 : (vlGenerate white1 vlNoParams 1 10).segs = [⟨1/2, 19/4, 21/4⟩] := by
    simp only [vlGenerate, vlNoParams, vlMerge, vlRawRows, white1]
    norm_num [List.range_succ, List.filterMap_cons, List.filterMap_nil,
      sampleBilinear_white, lerp]
  have h2 : (vlGenerate white1 vlSwappedLen 1 10).segs = [⟨1/2, 0, 10⟩] := by
    simp only [vlGenerate, vlSwappedLen, vlMerge, vlRawRows, white1]
    norm_num [List.range_succ, List.filterMap_cons, List.filterMap_nil,
      sampleBilinear_white, lerp]
  intro heq
  rw [heq, h2] at h1
  norm_num at h1

/-- C7 (amended): stroke pairs and radius pairs are order-normalized and
swap-invariant — swapping `minStroke`/`maxStroke` leaves the
vertical-lines and horizontal-lines static output unchanged, and
swapping `minRadius`/`maxRadius` leaves the particle-scatter output
unchanged; but the length pairs (`minLength`/`maxLength`, cf. the
counterexample) are not order-normalized on the min side. -/
theorem c7_swap_invariance (a b : ℚ) :
    (∀ (sd : SampleData) (p : VLParamsOpt) (W H : ℚ),
      vlGenerate sd { p with minStroke := some a, maxStroke := some b } W H =
        vlGenerate sd { p with minStroke := some b, maxStroke := some a } W H) ∧
    (∀ (sd : SampleData) (p : HLParamsOpt) (W H : ℚ),
      hlGenerate sd { p with minStroke := some a, maxStroke := some b } W H =
        hlGenerate sd { p with minStroke := some b, maxStroke := some a } W H) ∧
    (∀ (jsSin : ℚ → ℚ) (jsPow : ℚ → ℚ → ℚ) (jsPi : ℚ) (sd : SampleData)
        (p : PSParamsOpt) (W H : ℚ),
      psGenerate jsSin jsPow jsPi sd { p with minRadius := some a, maxRadius := some b } W H =
        psGenerate jsSin jsPow jsPi sd { p with minRadius := some b, maxRadius := some a } W H) := by
  refine ⟨?_, ?_, ?_⟩
  · intro sd p W H
    simp only [vlGenerate, vlMerge, Option.getD_some]
    rw [add_comm b a]
  · intro sd p W H
    simp only [hlGenerate, hlMerge, Option.getD_some]
    rw [min_comm b a, max_comm b a]
  · intro jsSin jsPow jsPi sd p W H
    simp only [psGenerate, psMerge, Option.getD_some]
    rw [min_comm b a, max_comm b a]

/-! ### Claim C8 — degenerate sizes are skipped -/

/-- C8 counterexample: the Ellipse Grid static generator does emit a
zero-size primitive.  On a 1×1 all-white grid with `cols = 1` and output
10×10, the single cell has darkness 0, giving `ry = 0`; since
`rx = max(ry * eccentricity, 0.5) = 0.5` the skip guard
`rx < 0.3 && ry < 0.3` never fires, and the ellipse `(5, 5, 0.5, 0)`
with vertical radius exactly `0` — below every epsilon in the claimed
0.15–0.5 range — is emitted. -/
theorem c8_counterexample :
    egGenerate white1 egColsOne 10 10 = [⟨5, 5, 1/2, 0⟩] ∧ (0 : ℚ) < 3/20 := by
  constructor
  · simp only [egGenerate, egColsOne, white1, Option.getD_some, Option.getD_none]
    norm_num [List.range_succ, List.filterMap_cons, List.filterMap_nil,
      sampleBilinear_white, lerp, Int.toNat_one]
  · norm_num

/-- C8 (amended): each module's own skip guard is respected — the
vertical-lines static generator never emits a dash shorter than its
epsilon `0.5`, and the ellipse-grid static generator never emits an
ellipse satisfying its skip condition (`rx < 0.3` and `ry < 0.3`
together); indeed every emitted ellipse has `rx ≥ 0.5`.  It does not
follow that no zero-size primitive is emitted: `ry` alone is unguarded
(see the counterexample). -/
theorem c8_size_cutoffs (sd : SampleData) (pv : VLParamsOpt) (pe : EGParamsOpt) (W H : ℚ) :
    (∀ s ∈ (vlGenerate sd pv W H).segs, 1/2 ≤ s.y2 - s.y1) ∧
    (∀ e ∈ egGenerate sd pe W H, 1/2 ≤ e.rx ∧ ¬ (e.rx < 3/10 ∧ e.ry < 3/10)) := by
  constructor
  · intro s hs
    simp only [vlGenerate, List.mem_flatMap, List.mem_filterMap] at hs
    obtain ⟨c, _, r, _, hf⟩ := hs
    rcases ite_eq_iff.mp hf with ⟨_, hbad⟩ | ⟨hge, hf2⟩
    · exact absurd hbad (by simp)
    · obtain rfl := Option.some.inj hf2
      push_neg at hge
      dsimp only
      linarith
  · intro e he
    simp only [egGenerate, List.mem_flatMap, List.mem_filterMap] at he
    obtain ⟨r, _, c, _, hf⟩ := he
    rcases ite_eq_iff.mp hf with ⟨_, hbad⟩ | ⟨_, hf2⟩
    · exact absurd hbad (by simp)
    · obtain rfl := Option.some.inj hf2
      dsimp only
      refine ⟨le_max_right _ _, fun hcon => ?_⟩
      exact absurd hcon.1 (not_lt.mpr (le_trans (by norm_num) (le_max_right _ _)))

/-- Witness for C8: on a 1×1 all-black grid the vertical-lines generator
emits the full-height dash `(1/2, 0)–(1/2, 1)` of height `1 ≥ 0.5`, and
on the 1×1 all-white grid the ellipse grid emits `(5, 5, 1/2, 0)` whose
`rx = 1/2` clears the skip condition. -/
theorem c8_witness :
    (1/2 : ℚ) ≤ (Seg.mk (1/2) 0 1).y2 - (Seg.mk (1/2) 0 1).y1 ∧
    (1/2 : ℚ) ≤ (Ellipse.mk 5 5 (1/2) 0).rx ∧
    ¬ ((Ellipse.mk 5 5 (1/2) 0).rx < 3/10 ∧ (Ellipse.mk 5 5 (1/2) 0).ry < 3/10) :=
  ⟨(c8_size_cutoffs black1 vlNoParams egColsOne 1 1).1 (Seg.mk (1/2) 0 1)
      (by
        simp only [vlGenerate, vlNoParams, vlMerge, vlRawRows, black1, Option.getD_none]
        norm_num [List.range_succ, List.filterMap_cons, List.filterMap_nil,
          sampleBilinear_const, lerp]),
    (c8_size_cutoffs white1 vlNoParams egColsOne 10 10).2 (Ellipse.mk 5 5 (1/2) 0)
      (by
        simp only [egGenerate, egColsOne, white1, Option.getD_some, Option.getD_none]
        norm_num [List.range_succ, List.filterMap_cons, List.filterMap_nil,
          sampleBilinear_white, lerp, Int.toNat_one])⟩

/-! ### Claim C1 — static/animated agreement at time zero -/

/-- Monotone filterMap produces a sublist: if `f` agrees with `g` wherever
`f` emits, then the `f`-image is a sublist of the `g`-image. -/
theorem filterMap_sublist_mono {α β : Type} (f g : α → Option β) (l : List α)
    (h : ∀ a ∈ l, f a = none ∨ f a = g a) :
    List.Sublist (l.filterMap f) (l.filterMap g) := by
  induction l with
  | nil => simp
  | cons a l ih =>
    have ha := h a (List.mem_cons_self a l)
    have hl := ih fun x hx => h x (List.mem_cons_of_mem a hx)
    rcases ha with ha | ha
    · rw [List.filterMap_cons, ha]
      rcases hg : g a with _ | b
      · rw [List.filterMap_cons, hg]
        exact hl
      · rw [List.filterMap_cons, hg]
        exact hl.cons _
    · rw [List.filterMap_cons, List.filterMap_cons, ha]
      rcases hg : g a with _ | b
      · exact hl
      · exact hl.cons₂ _

/-- Pointwise sublists give a sublist of concatenations. -/
theorem flatMap_sublist_mono {α β : Type} (f g : α → List β) (l : List α)
    (h : ∀ a ∈ l, List.Sublist (f a) (g a)) :
    List.Sublist (l.flatMap f) (l.flatMap g) := by
  induction l with
  | nil => simp
  | cons a l ih =>
    rw [List.flatMap_cons, List.flatMap_cons]
    exact (h a (List.mem_cons_self a l)).append
      (ih fun x hx => h x (List.mem_cons_of_mem a hx))

/-- Row-count agreement of the vertical-lines pair: the static generator
reads `params.rows ?? gridRows` on the raw parameters, the animated init
reads `merged.rows ?? gridRows`; both give the same count. -/
theorem vlRawRows_merged (p : VLParamsOpt) (gridRows : ℕ) :
    vlRawRows p.rows gridRows = ((vlMerge p).rows).getD gridRows := by
  rcases hp : p.rows with _ | r
  · simp [vlRawRows, vlMerge, hp]
  · rcases r with _ | n <;> simp [vlRawRows, vlMerge, hp]

/-- Commuting an option map into the skip conditional. -/
theorem map_ite_option {α β : Type} (c : Prop) [Decidable c] (f : α → β) (p : α) :
    Option.map f (if c then none else some p) = if c then none else some (f p) := by
  split_ifs <;> rfl

/-- Pointwise comparison of two skip conditionals over the same derived
quantity: a stricter skip threshold either emits nothing or emits the
same (equal) value as the looser one. -/
theorem ite_lt_none_or {β : Type} (x a b : ℚ) (y z : β) (hab : b ≤ a) (hyz : y = z) :
    (if x < a then none else some y) = none ∨
      (if x < a then none else some y) = (if x < b then none else some z) := by
  by_cases h : x < a
  · exact Or.inl (if_pos h)
  · refine Or.inr ?_
    rw [if_neg h, if_neg fun hb => h (lt_of_lt_of_le hb hab), hyz]

/-- Reduction of the drawFrame column guard: a column with no segments
draws nothing, which is also what mapping over its empty segment list
produces, so the guard is transparent to the drawn geometry. -/
theorem ite_len_map {α β : Type} (l : List α) (h : α → β) :
    (if l.length = 0 then ([] : List β) else l.map h) = l.map h := by
  cases l with
  | nil => simp
  | cons a t => simp

/-- C1 counterexample: the static generator and the animated controller at
time zero do not render the same primitives.  On a 1×1 grid of
brightness `0.6` with output 1×1, the dash height is `0.43`: the static
generator (skip threshold `0.5`) renders nothing, while the animated
controller (skip threshold `0.3`) renders one segment. -/
theorem c1_counterexample :
    (vlGenerate gray1 vlNoParams 1 1).segs ≠
      vlDrawnGeom sinZero (vlInit gray1 vlNoParams 1 1) 0 := by
  have h1 : (vlGenerate gray1 vlNoParams 1 1).segs = [] := by
    simp only [vlGenerate, vlNoParams, vlMerge, vlRawRows, gray1]
    norm_num [List.range_succ, List.filterMap_cons, List.filterMap_nil,
      sampleBilinear_const, lerp]
  have h2 : vlDrawnGeom sinZero (vlInit gray1 vlNoParams 1 1) 0 =
      [⟨1/2, 57/200, 143/200⟩] := by
    simp only [vlDrawnGeom, vlDrawFrame, vlInit, vlNoParams, vlMerge, vlRawRows, gray1]
    norm_num [List.range_succ, List.filterMap_cons, List.filterMap_nil,
      List.getElem?_cons_zero, sampleBilinear_const, lerp, sinZero]
  rw [h1, h2]
  simp

/-- C1 (amended): for the vertical-lines pair, every primitive the static
generator renders also appears, at the same position and size, among the
segments the animated controller draws at time zero (the static segment
list is a sublist of the drawn geometry); the animated controller may
additionally draw segments whose height lies in `[0.3, 0.5)`, because
its skip threshold is lower. -/
theorem c1_static_sublist_anim (jsSin : ℚ → ℚ) (sd : SampleData) (p : VLParamsOpt) (W H : ℚ) :
    List.Sublist (vlGenerate sd p W H).segs
      (vlDrawnGeom jsSin (vlInit sd p W H) 0) := by
  unfold vlGenerate vlInit vlDrawnGeom vlDrawFrame
  dsimp only
  rw [vlRawRows_merged, List.map_flatMap]
  refine flatMap_sublist_mono _ _ _ ?_
  intro c hc
  have hc' : c < sd.cols := List.mem_range.mp hc
  rw [List.getElem?_map, List.getElem?_range hc', Option.map_some']
  dsimp only
  rw [ite_len_map, List.map_map, List.map_filterMap]
  refine filterMap_sublist_mono _ _ _ ?_
  intro r _
  dsimp only
  rw [map_ite_option]
  exact ite_lt_none_or _ _ _ _ _ (by norm_num) rfl

/-! ### Claim C3 — the darkness-0.3 density threshold -/

/-- C3 counterexample: Particle Scatter has no darkness threshold.  On a
1×1 all-white grid (darkness 0 everywhere) with `maxDots = 1`,
`seed = 2` and output 1×1, `generate` emits one circle although the
darkness at its sample point is `0 < 0.3` — the floor weight `+0.02`
deliberately lets fully light cells emit dots.  The trigonometric and
power oracles are instantiated concretely (`Math.pow(0, 1.8) = 0` is the
exact ECMAScript value; the emitted geometry is independent of the sine
values because `baseR = safeMinRadius` makes the pulse lerp constant). -/
theorem c3_counterexample :
    psGenerate sinZero powZero piDouble white1 psOneDotSeed2 1 1 =
      [⟨161057907/1073741824, 151595403/2147483648, 1/2⟩] ∧
    1 - sampleBilinear white1.grid white1.cols white1.rows
        ((161057907 : ℚ)/1073741824) ((151595403 : ℚ)/2147483648) < 3/10 := by
  have hs1 : mulberry32Step 2 = (1831565815, 3153583793) := by decide
  have hs2 : mulberry32Step 1831565815 = (3663131628, 1395857638) := by decide
  have hs3 : mulberry32Step 3663131628 = (1199730145, 1225337227) := by decide
  have hs4 : mulberry32Step 1199730145 = (3031295958, 2310499808) := by decide
  have hs5 : mulberry32Step 3031295958 = (567894475, 3759333107) := by decide
  constructor
  · norm_num [psGenerate, psMerge, psOneDotSeed2, white1, Option.getD_some,
      Option.getD_none, psCellWeights, cumsum, cumsumGo, psLoop, psStep, rand,
      hs1, hs2, hs3, hs4, hs5, mb32Val, sinZero, powZero, List.range_succ,
      wsearch, wsearchGo, sampleBilinear_white, powZero, lerp, Int.toNat_one]
  · rw [show white1.grid = whiteGrid from rfl]
    rw [sampleBilinear_white]
    norm_num

/-- C3 (amended): the 0.3 source-darkness cut holds for Star Glint — every
glyph emitted by its static generator has darkness at least `0.3` at its
lattice sample point `(u, v)`; Particle Scatter has no such threshold
(see the counterexample). -/
theorem c3_starglint_density (jsSin : ℚ → ℚ) (jsPi : ℚ) (sd : SampleData) (p : SGParamsOpt)
    (W H : ℚ) :
    ∀ g ∈ sgGenerate jsSin jsPi sd p W H,
      3/10 ≤ 1 - sampleBilinear sd.grid sd.cols sd.rows g.u g.v := by
  intro g hg
  simp only [sgGenerate, List.mem_flatMap, List.mem_filterMap] at hg
  obtain ⟨r, _, c, _, hf⟩ := hg
  rcases ite_eq_iff.mp hf with ⟨_, hbad⟩ | ⟨hge, hf2⟩
  · exact absurd hbad (by simp)
  · rcases ite_eq_iff.mp hf2 with ⟨_, hbad⟩ | ⟨_, hf3⟩
    · exact absurd hbad (by simp)
    · obtain rfl := Option.some.inj hf3
      push_neg at hge
      exact hge

/-- Witness for C3 on the 1×1 all-black grid with `density = 1`: star
glint emits the glyph centred at `(5/2, 5/2)` with scale `47/5`, and its
sample-point darkness is `1 ≥ 0.3`. -/
theorem c3_witness :
    3/10 ≤ 1 - sampleBilinear black1.grid black1.cols black1.rows
      (Glyph.mk (1/2) (1/2) (5/2) (5/2) (47/5) (141/50)).u
      (Glyph.mk (1/2) (1/2) (5/2) (5/2) (47/5) (141/50)).v :=
  c3_starglint_density sinZero piDouble black1 sgDensityOne 10 10
    (Glyph.mk (1/2) (1/2) (5/2) (5/2) (47/5) (141/50))
    (by
      simp only [sgGenerate, sgDensityOne, black1, Option.getD_some, Option.getD_none,
        pseudoRandom, sinZero]
      norm_num [List.range_succ, List.filterMap_cons, List.filterMap_nil,
        sampleBilinear_const, lerp, Int.floor_one, Int.toNat_one])

/-! ### Claim C9 — particle scatter on an all-white grid is non-empty -/

/-- Running cumulative sums of a constant list form an arithmetic table. -/
theorem cumsumGo_replicate (a : ℚ) :
    ∀ (n : ℕ) (acc : ℚ),
      cumsumGo acc (List.replicate n a) =
        (List.range n).map fun (k : ℕ) => acc + ((k : ℚ) + 1) * a := by
  intro n
  induction n with
  | zero => intro acc; simp [cumsumGo]
  | succ n ih =>
    intro acc
    rw [List.replicate_succ, cumsumGo, ih, List.range_succ_eq_map, List.map_cons,
      List.map_map]
    congr 1
    · push_cast
      ring
    · refine List.map_congr_left fun k _ => ?_
      simp only [Function.comp]
      push_cast
      ring

/-- Concatenating `n` copies of a constant `m`-element block. -/
theorem flatMap_replicate_const (a : ℚ) (m : ℕ) :
    ∀ n : ℕ, ((List.range n).flatMap fun _ => List.replicate m a) = List.replicate (n * m) a := by
  intro n
  induction n with
  | zero => simp
  | succ n ih =>
    rw [List.range_succ, List.flatMap_append, ih, List.flatMap_cons, List.flatMap_nil,
      List.append_nil, ← List.replicate_add]
    congr 1
    ring

/-- Weight table of the all-white 10×10 grid: 100 copies of the floor
weight `0.02` (using `Math.pow(0, 1.8) = 0`). -/
theorem psCellWeights_white10 (jsPow : ℚ → ℚ → ℚ) (hpow : jsPow 0 (9/5) = 0) :
    psCellWeights jsPow whiteGrid 10 10 = List.replicate 100 (1/50) := by
  unfold psCellWeights whiteGrid
  simp only [sub_self, hpow, zero_add, List.map_const', List.length_range]
  rw [flatMap_replicate_const]

/-- Element lookup in a mapped range table. -/
theorem getD_map_range (f : ℕ → ℚ) {i n : ℕ} (h : i < n) :
    ((List.range n).map f).getD i 0 = f i := by
  rw [List.getD_eq_getElem?_getD, List.getElem?_map, List.getElem?_range h,
    Option.map_some', Option.getD_some]

/-- Unfolding of one binary-search iteration. -/
theorem wsearchGo_succ (ws : List ℚ) (t : ℚ) (fuel lo hi : ℕ) :
    wsearchGo ws t (fuel + 1) lo hi =
      if lo < hi then
        if ws.getD ((lo + hi) >>> 1) 0 < t then wsearchGo ws t fuel (((lo + hi) >>> 1) + 1) hi
        else wsearchGo ws t fuel lo ((lo + hi) >>> 1)
      else lo := rfl

/-- Binary-search pick on the all-white cumulative table: any target in
the interval `(6/5, 61/50]` selects cell index 60. -/
theorem wsearch_rep100 (t : ℚ) (h1 : 6/5 < t) (h2 : t ≤ 61/50) :
    wsearch (cumsum (List.replicate 100 ((1:ℚ)/50))) t = 60 := by
  have hL : cumsum (List.replicate 100 ((1:ℚ)/50)) =
      (List.range 100).map fun (k : ℕ) => 0 + ((k : ℚ) + 1) * (1/50) := cumsumGo_replicate _ 100 0
  set L := cumsum (List.replicate 100 ((1:ℚ)/50)) with hLdef
  have hget : ∀ i : ℕ, i < 100 → L.getD i 0 = ((i : ℚ) + 1) / 50 := by
    intro i hi
    rw [hL, getD_map_range _ hi]
    ring
  have hlen : L.length = 100 := by rw [hL]; simp
  unfold wsearch
  rw [hlen]
  norm_num
  rw [show (100:ℕ) = 99 + 1 from by norm_num, wsearchGo_succ,
    if_pos (by norm_num : (0:ℕ) < 99), show ((0 + 99 : ℕ) >>> 1) = 49 from by decide,
    if_pos (show L.getD 49 0 < t from by rw [hget 49 (by norm_num)]; norm_num; linarith)]
  norm_num
  nth_rewrite 1 [show (99:ℕ) = 98 + 1 from by norm_num]
  rw [wsearchGo_succ, if_pos (by norm_num : (50:ℕ) < 99),
    show ((50 + 99 : ℕ) >>> 1) = 74 from by decide,
    if_neg (show ¬ L.getD 74 0 < t from by rw [hget 74 (by norm_num)]; norm_num; linarith)]
  rw [show (98:ℕ) = 97 + 1 from by norm_num, wsearchGo_succ,
    if_pos (by norm_num : (50:ℕ) < 74), show ((50 + 74 : ℕ) >>> 1) = 62 from by decide,
    if_neg (show ¬ L.getD 62 0 < t from by rw [hget 62 (by norm_num)]; norm_num; linarith)]
  rw [show (97:ℕ) = 96 + 1 from by norm_num, wsearchGo_succ,
    if_pos (by norm_num : (50:ℕ) < 62), show ((50 + 62 : ℕ) >>> 1) = 56 from by decide,
    if_pos (show L.getD 56 0 < t from by rw [hget 56 (by norm_num)]; norm_num; linarith)]
  norm_num
  rw [show (96:ℕ) = 95 + 1 from by norm_num, wsearchGo_succ,
    if_pos (by norm_num : (57:ℕ) < 62), show ((57 + 62 : ℕ) >>> 1) = 59 from by decide,
    if_pos (show L.getD 59 0 < t from by rw [hget 59 (by norm_num)]; norm_num; linarith)]
  norm_num
  rw [show (95:ℕ) = 94 + 1 from by norm_num, wsearchGo_succ,
    if_pos (by norm_num : (60:ℕ) < 62), show ((60 + 62 : ℕ) >>> 1) = 61 from by decide,
    if_neg (show ¬ L.getD 61 0 < t from by rw [hget 61 (by norm_num)]; norm_num; linarith)]
  rw [show (94:ℕ) = 93 + 1 from by norm_num, wsearchGo_succ,
    if_pos (by norm_num : (60:ℕ) < 61), show ((60 + 61 : ℕ) >>> 1) = 60 from by decide,
    if_neg (show ¬ L.getD 60 0 < t from by rw [hget 60 (by norm_num)]; norm_num; linarith)]
  rw [show (93:ℕ) = 92 + 1 from by norm_num, wsearchGo_succ, if_neg (by norm_num)]

/-- Loop unfolding. -/
theorem psLoop_succ (env : PSEnv) (n : ℕ) (st : PSState) :
    psLoop env (n + 1) st = psLoop env n (psStep env st) := rfl

/-- A dot-loop iteration only ever appends to the circle list. -/
theorem psStep_extends (env : PSEnv) (st : PSState) :
    ∃ t, (psStep env st).circles = st.circles ++ t := by
  unfold psStep
  dsimp only
  split_ifs
  · exact ⟨[], (List.append_nil _).symm⟩
  · exact ⟨[], (List.append_nil _).symm⟩
  · exact ⟨[], (List.append_nil _).symm⟩
  · exact ⟨_, rfl⟩

/-- Once a circle has been emitted, the remaining iterations cannot make
the output empty. -/
theorem psLoop_ne_nil (env : PSEnv) :
    ∀ (n : ℕ) (st : PSState), st.circles ≠ [] → (psLoop env n st).circles ≠ [] := by
  intro n
  induction n with
  | zero => exact fun _ h => h
  | succ n ih =>
    intro st h
    rw [psLoop_succ]
    refine ih _ ?_
    obtain ⟨t, ht⟩ := psStep_extends env st
    rw [ht]
    intro hnil
    exact h (List.append_eq_nil.mp hnil).1

/-- Emission of the first dot on the all-white 10×10 weight table: with
the documented PRNG values for seed 42, the weighted pick selects cell
60 (row 6, column 0), the jittered position lies inside the output for
any positive size, the re-sampled darkness is 0, and the radius
collapses to `safeMinRadius = 0.5`, which clears both `< 0.15` cutoffs,
so exactly one circle is appended. -/
theorem psStep_white_emits (env : PSEnv) (st : PSState)
    (hgrid : env.grid = whiteGrid)
    (hgc : env.gridCols = 10)
    (hwts : env.weights = cumsum (List.replicate 100 ((1:ℚ)/50)))
    (htw : env.totalWeight = 2)
    (hcw : env.cellW = env.outputWidth / 10)
    (hch : env.cellH = env.outputHeight / 10)
    (hW : 0 < env.outputWidth) (hH : 0 < env.outputHeight)
    (hsm : env.safeMinRadius = 1/2) (hsx : env.safeMaxRadius = 6)
    (hsc : env.scatter = 1) (hrng : st.rng = 42) :
    ∃ cir, (psStep env st).circles = st.circles ++ [cir] := by
  have hs1 : mulberry32Step 42 = (1831565855, 2581720956) := by decide
  have hs2 : mulberry32Step 1831565855 = (3663131668, 1925393290) := by decide
  have hs3 : mulberry32Step 3663131668 = (1199730185, 3661312704) := by decide
  have hs4 : mulberry32Step 1199730185 = (3031295998, 2876485805) := by decide
  have hr1 : rand 42 = (1831565855, mb32Val 2581720956) := by rw [rand, hs1]
  have hr2 : rand 1831565855 = (3663131668, mb32Val 1925393290) := by rw [rand, hs2]
  have hr3 : rand 3663131668 = (1199730185, mb32Val 3661312704) := by rw [rand, hs3]
  have hr4 : rand 1199730185 = (3031295998, mb32Val 2876485805) := by rw [rand, hs4]
  unfold psStep
  rw [hrng, hr1]
  dsimp only
  rw [hr2]
  dsimp only
  rw [hr3]
  dsimp only
  rw [hr4]
  dsimp only
  rw [htw, hwts, hsc, hcw, hch, hgrid, hgc, hsm, hsx]
  rw [wsearch_rep100 _ (by norm_num [mb32Val]) (by norm_num [mb32Val])]
  rw [show (60 / 10 : ℕ) = 6 from rfl, show (60 % 10 : ℕ) = 0 from rfl]
  split_ifs with hb h1 h2
  · exfalso
    rcases hb with h | h | h | h <;> simp only [mb32Val] at h <;> norm_num at h <;>
      nlinarith [hW, hH]
  · exfalso
    rw [sampleBilinear_white] at h1
    norm_num [lerp, sub_self, zero_mul, add_zero] at h1
  · exfalso
    rw [sampleBilinear_white] at h2
    norm_num [lerp, sub_self, zero_mul, add_zero] at h2
  · exact ⟨_, rfl⟩

/-- Nonemptiness form of the first-dot emission lemma. -/
theorem psStep_white_ne : ∀ (env : PSEnv) (st : PSState),
    env.grid = whiteGrid → env.gridCols = 10 →
    env.weights = cumsum (List.replicate 100 ((1:ℚ)/50)) → env.totalWeight = 2 →
    env.cellW = env.outputWidth / 10 → env.cellH = env.outputHeight / 10 →
    0 < env.outputWidth → 0 < env.outputHeight →
    env.safeMinRadius = 1/2 → env.safeMaxRadius = 6 → env.scatter = 1 → st.rng = 42 →
    (psStep env st).circles ≠ [] := by
  intro env st h1 h2 h3 h4 h5 h6 h7 h8 h9 h10 h11 h12
  obtain ⟨cir, hc⟩ := psStep_white_emits env st h1 h2 h3 h4 h5 h6 h7 h8 h9 h10 h11 h12
  rw [hc]
  simp

/-- C9: on a 10×10 all-white grid (`brightness = 1` everywhere), particle
scatter with its default parameters emits a non-empty circle list for
every positive output size: the floor weight `+0.02` makes the
cumulative weight table total `2 > 0`, weighted sampling proceeds, and
the first dot is emitted.  The platform power function need only satisfy
`Math.pow(0, 1.8) = 0` (its exact ECMAScript value); the emitted radius
is independent of the platform sine. -/
theorem c9_white_scatter_nonempty (jsSin : ℚ → ℚ) (jsPow : ℚ → ℚ → ℚ) (jsPi W H : ℚ)
    (hpow : jsPow 0 (9/5) = 0) (hW : 0 < W) (hH : 0 < H) :
    psGenerate jsSin jsPow jsPi white10 psNoParams W H ≠ [] := by
  have hw := psCellWeights_white10 jsPow hpow
  unfold psGenerate
  simp only [white10, psMerge, psNoParams, Option.getD_none]
  rw [hw, List.sum_replicate, nsmul_eq_mul]
  split_ifs with h0
  · exact absurd h0 (by norm_num)
  rw [show (max 1 (round ((6000:ℚ)))).toNat = 5999 + 1 from by rw [round_ofNat]; rfl,
    psLoop_succ, show (42 % 4294967296 : ℕ) = 42 from by norm_num]
  refine psLoop_ne_nil _ _ _ ?_
  apply psStep_white_ne
  · rfl
  · rfl
  · rfl
  · norm_num
  · norm_num
  · norm_num
  · exact hW
  · exact hH
  · norm_num
  · norm_num
  · norm_num
  · rfl

/-- Witness for C9 at output size 1×1 with concrete oracles. -/
theorem c9_witness :
    psGenerate sinZero powZero piDouble white10 psNoParams 1 1 ≠ [] :=
  c9_white_scatter_nonempty sinZero powZero piDouble 1 1 rfl
    (by norm_num) (by norm_num)

end Reffect
